import Mathlib

/-!
Verification of the PyCE computational-experiment build orchestrator
(`pyce/computation.py`, `pyce/util.py`) against its specification.

The Python code is shallowly embedded:
* argument values of an invocation become the mutually inductive
  `PyVal` / `PyList` / `PyDict` (a `DataObjectDescriptor` is represented
  by its `str()` form, an opaque target identifier string; lists and
  tuples, which the code treats identically, both become `PyList`);
* a `ComputationDescriptor` becomes the structure `Comp`;
* a `ComputationScheme` becomes the structure `Scheme`; its Python dicts
  become association lists where a fresh binding is prepended and lookup
  takes the first match (insert-overwrites semantics);
* the filesystem becomes `FS := String → Bool` (path ↦ existence); file
  creation and `os.unlink` become pointwise updates;
* the pluggable computation runner becomes a function from the invocation
  and the filesystem at call time to the filesystem it leaves behind plus
  an outcome (success / returned-False / raised-exception);
* `find_next_step_to`, which can recurse unboundedly on a cyclic graph, is
  embedded with an explicit fuel parameter: the outer `none` means the
  fuel ran out (the Python call would still be recursing), `some r` means
  the Python call returns `r`;
* raising an exception in `add_invocation` is modelled by returning the
  error message next to the object state at raise time, and
  `save_makefile` is modelled as the list of lines it prints.
-/

namespace Pyce

mutual

/-- A Python value that can appear among the arguments of an invocation:
a `DataObjectDescriptor` (identified by its string form), any other
literal, a list or tuple of values, or a dict of values. -/
inductive PyVal where
  | dataObj : String → PyVal
  | lit : String → PyVal
  | pylist : PyList → PyVal
  | pydict : PyDict → PyVal

/-- A Python list (or tuple) of values. -/
inductive PyList where
  | nil : PyList
  | cons : PyVal → PyList → PyList

/-- A Python dict of values, as key/value pairs in insertion order. -/
inductive PyDict where
  | nil : PyDict
  | cons : String → PyVal → PyDict → PyDict

end

/-- Builds a `PyList` from a Lean list (fixture convenience only). -/
def pl (vs : List PyVal) : PyList :=
  vs.foldr PyList.cons PyList.nil

/-- Python's `dict.values()`, in the dict's iteration order. -/
def PyDict.values : PyDict → PyList
  | .nil => .nil
  | .cons _ v rest => .cons v (PyDict.values rest)

/-- `ComputationDescriptor.extract_data_objects`, on a non-`None` list:
walks the elements in order; a `DataObjectDescriptor` is appended to the
result; a list or a tuple is descended into recursively; anything else
(literals, dicts) is skipped. -/
def extractList : PyList → List String
  | .nil => []
  | .cons (PyVal.dataObj s) rest => s :: extractList rest
  | .cons (PyVal.pylist l) rest => extractList l ++ extractList rest
  | .cons (PyVal.lit _) rest => extractList rest
  | .cons (PyVal.pydict _) rest => extractList rest

/-- `ComputationDescriptor.extract_data_objects`: when given `None`
returns the empty list, otherwise walks the list. -/
def extract_data_objects : Option PyList → List String
  | none => []
  | some l => extractList l

/-- `ComputationDescriptor`: operation name, positional arguments and
keyword arguments (each possibly `None`). -/
structure Comp where
  name : Option String
  args : Option PyList
  kwargs : Option PyDict

/-- `ComputationDescriptor.dependencies`: data objects extracted from the
positional arguments, followed by those extracted from the values of the
keyword-argument dict (when the latter is not `None`). -/
def Comp.dependencies (c : Comp) : List String :=
  let result := extract_data_objects c.args
  match c.kwargs with
  | none => result
  | some kw => result ++ extractList kw.values

/-- The value assigned as the producer of a target: either a
`ComputationDescriptor` or any other Python value. -/
inductive Invocation where
  | comp : Comp → Invocation
  | value : PyVal → Invocation

/-- The `isinstance` check in `add_invocation`: a non-`ComputationDescriptor`
value is wrapped as `ComputationDescriptor(name='copy', args=[value])`
(so its `kwargs` is `None`). -/
def wrap_invocation : Invocation → Comp
  | .comp c => c
  | .value v => { name := some "copy", args := some (pl [v]), kwargs := none }

/-- Lookup in a Python dict modelled as an association list with the most
recent binding first. -/
def dictGet {α : Type} : List (String × α) → String → Option α
  | [], _ => none
  | (k, v) :: rest, key => if k = key then some v else dictGet rest key

/-- `ComputationScheme`: the declared invocations in declaration order,
the dict from target string to its index in that list, the dict from
target string to its dependency list, the cache directory and the
optional main target. -/
structure Scheme where
  all_invocations : List (String × Comp)
  invocation_idx : List (String × Nat)
  dependency_graph : List (String × List String)
  cache_dir : String
  main_target : Option String

/-- `ComputationScheme.__init__` with a given `cache_dir`. -/
def emptyScheme (cache_dir : String) : Scheme :=
  { all_invocations := []
    invocation_idx := []
    dependency_graph := []
    cache_dir := cache_dir
    main_target := none }

/-- `ComputationScheme.target_exists`. -/
def target_exists (s : Scheme) (target_str : String) : Bool :=
  (dictGet s.invocation_idx target_str).isSome

/-- `ComputationScheme.add_invocation`. Raising the duplicate-target
exception is modelled by returning `some message` together with the
scheme exactly as it was when the exception was raised (the check happens
before any field is touched). On success returns `none` and the updated
scheme: the invocation is appended, the dependency list stored, and the
index of the new invocation recorded. -/
def add_invocation (s : Scheme) (data_object : String) (v : Invocation) :
    Option String × Scheme :=
  if (dictGet s.dependency_graph data_object).isSome then
    (some ("Target " ++ data_object ++ " has multiple specifications"), s)
  else
    let computation := wrap_invocation v
    let all := s.all_invocations ++ [(data_object, computation)]
    let deps := computation.dependencies
    (none,
      { s with
        all_invocations := all
        dependency_graph := (data_object, deps) :: s.dependency_graph
        invocation_idx := (data_object, all.length - 1) :: s.invocation_idx })

/-- `ComputationScheme.set_main_target`. -/
def set_main_target (s : Scheme) (data_object : String) : Scheme :=
  { s with main_target := some data_object }

/-- `ComputationScheme.find_invocation_for_target`: index lookup followed
by list indexing (an out-of-range index, impossible for schemes built by
declarations, is mapped to `none`; in Python it raises, which the one
caller inside `compute_target`'s `try` turns into the exception path). -/
def find_invocation_for_target (s : Scheme) (target_str : String) :
    Option (String × Comp) :=
  match dictGet s.invocation_idx target_str with
  | none => none
  | some i => s.all_invocations[i]?

/-! ### Filenames: `urllib.quote` and `os.path.join` -/

/-- `urllib.always_safe` membership: ASCII letters, digits, `_`, `.`, `-`. -/
def is_always_safe (c : Char) : Bool :=
  ('a' ≤ c && c ≤ 'z') || ('A' ≤ c && c ≤ 'Z') || ('0' ≤ c && c ≤ '9') ||
    c = '_' || c = '.' || c = '-'

/-- Upper-case hexadecimal digit for a value below 16. -/
def hexDigit (n : Nat) : Char :=
  if n < 10 then Char.ofNat ('0'.toNat + n) else Char.ofNat ('A'.toNat + n - 10)

/-- One character under `urllib.quote` with the default safe set `'/'`:
kept if always-safe or `/`, otherwise percent-encoded as two upper-case
hex digits (modelled for byte-sized characters, which is what Python 2
strings hold). -/
def quoteChar (c : Char) : List Char :=
  if is_always_safe c || c = '/' then [c]
  else ['%', hexDigit (c.toNat / 16 % 16), hexDigit (c.toNat % 16)]

/-- `urllib.quote` with the default safe set. -/
def quote (s : String) : String :=
  String.mk (s.data.flatMap quoteChar)

/-- Python's `b.startswith('/')`: the first character is a slash. -/
def starts_with_slash (b : String) : Bool :=
  match b.data with
  | [] => false
  | c :: _ => c = '/'

/-- Python's `a.endswith('/')`: the last character is a slash. -/
def ends_with_slash (a : String) : Bool :=
  match a.data.getLast? with
  | none => false
  | some c => c = '/'

/-- Two-argument `os.path.join` (POSIX): an absolute second component
discards the first; otherwise they are joined with `/` unless the first
is empty or already ends with `/`. -/
def os_path_join (a b : String) : String :=
  if starts_with_slash b then b
  else if a = "" || ends_with_slash a then a ++ b
  else a ++ "/" ++ b

/-- `ComputationScheme.target_filename`. -/
def target_filename (s : Scheme) (obj : String) : String :=
  os_path_join s.cache_dir (quote obj)

/-- The path of the lock marker: `target_filename(t) + ".locked"`. -/
def lock_filename (s : Scheme) (t : String) : String :=
  target_filename s t ++ ".locked"

/-! ### Filesystem state and the Target State Store -/

/-- The filesystem: which paths exist. -/
def FS : Type := String → Bool

/-- The filesystem with no paths present. -/
def emptyFS : FS := fun _ => false

/-- `os.unlink p`: the path no longer exists. -/
def fsRemove (fs : FS) (p : String) : FS :=
  fun q => if q = p then false else fs q

/-- Creating a file at `p` (contents are irrelevant to existence). -/
def fsCreate (fs : FS) (p : String) : FS :=
  fun q => if q = p then true else fs q

/-- `ComputationScheme.is_locked`. -/
def is_locked (s : Scheme) (fs : FS) (target_str : String) : Bool :=
  fs (lock_filename s target_str)

/-- `ComputationScheme.is_done`: artifact present and not locked. -/
def is_done (s : Scheme) (fs : FS) (target_str : String) : Bool :=
  !is_locked s fs target_str && fs (target_filename s target_str)

/-- `ComputationScheme.lock_target`: returns `False` without touching
anything if already locked, otherwise creates the lock marker (writing
the pid into it) and returns `True`. -/
def lock_target (s : Scheme) (fs : FS) (target_str : String) : Bool × FS :=
  if is_locked s fs target_str then (false, fs)
  else (true, fsCreate fs (lock_filename s target_str))

/-- `ComputationScheme.remove_target`: unlinks the output artifact only
if it exists. -/
def remove_target (s : Scheme) (fs : FS) (target_str : String) : FS :=
  if fs (target_filename s target_str) then
    fsRemove fs (target_filename s target_str)
  else fs

/-- `ComputationScheme.unlock_target`: unlinks the lock marker only if it
exists. -/
def unlock_target (s : Scheme) (fs : FS) (target_str : String) : FS :=
  if fs (lock_filename s target_str) then
    fsRemove fs (lock_filename s target_str)
  else fs

/-! ### Resolver: `find_next_step_to` -/

/-- The `for k in deps` loop of `find_next_step_to`, carrying the
`all_done` flag and the recursive resolution (applied to one level less
of fuel) as `recurse`: a locked dependency clears the flag; an undone
unlocked dependency is recursed into, its first non-`None` answer
returned immediately, a `None` answer clearing the flag; when the loop
ends the target itself is the next step iff the flag survived. -/
def find_deps_loop (recurse : String → Option (Option String))
    (s : Scheme) (fs : FS) :
    List String → Bool → String → Option (Option String)
  | [], all_done, target_str =>
    some (if all_done then some target_str else none)
  | k :: rest, all_done, target_str =>
    if is_locked s fs k then find_deps_loop recurse s fs rest false target_str
    else if !is_done s fs k then
      match recurse k with
      | none => none
      | some (some nxt) => some (some nxt)
      | some none => find_deps_loop recurse s fs rest false target_str
    else find_deps_loop recurse s fs rest all_done target_str

/-- `ComputationScheme.find_next_step_to`, with fuel. `none` means the
fuel ran out (the Python call, which has no such bound, would still be
recursing); `some r` means the Python call returns `r` (`r = none` being
Python's `None`, "no step available"). A locked target, or one with no
dependency record, yields no step; otherwise the dependency list is
walked by `find_deps_loop`. -/
def find_next_step_to (s : Scheme) (fs : FS) :
    Nat → String → Option (Option String)
  | 0, _ => none
  | fuel + 1, target_str =>
    if is_locked s fs target_str then some none
    else
      match dictGet s.dependency_graph target_str with
      | none => some none
      | some deps =>
        find_deps_loop (fun k => find_next_step_to s fs fuel k) s fs deps
          true target_str

/-! ### Executor: `compute_target` -/

/-- The result constants of `pyce/util.py`. -/
def STEP_RUN_OK : Nat := 0

/-- `STEP_RUN_FAILED`: the runner returned `False`. -/
def STEP_RUN_FAILED : Nat := 1

/-- `STEP_RUN_FAILED_WITH_EXCEPTION`: the runner raised. -/
def STEP_RUN_FAILED_WITH_EXCEPTION : Nat := 2

/-- `TARGET_NOT_FOUND`: the target has no declared invocation. -/
def TARGET_NOT_FOUND : Nat := 3

/-- `TARGET_LOCKED`: the target is already locked. -/
def TARGET_LOCKED : Nat := 4

/-- How a runner's `compute_target` call ends: returns `True`, returns
`False`, or raises. -/
inductive RunResult where
  | ok : RunResult
  | failed : RunResult
  | exc : RunResult
deriving DecidableEq

/-- The pluggable runner collaborator, observed at the Executor boundary:
from the invocation found for the target and the filesystem at call time
it produces the filesystem it leaves behind (it may create the artifact
or anything else) and how the call ended. -/
def Runner : Type := (String × Comp) → FS → FS × RunResult

/-- The numeric result `compute_target` reports for each way the runner
call can end. -/
def runResultCode : RunResult → Nat
  | .ok => STEP_RUN_OK
  | .failed => STEP_RUN_FAILED
  | .exc => STEP_RUN_FAILED_WITH_EXCEPTION

/-- `compute_target` of `pyce/util.py`: result code and the filesystem
after the call. Fails fast on an undeclared or locked target; otherwise
locks, runs the runner inside `try`, removes the artifact on failure or
exception, and unlocks in the `finally` block. (The impossible case of a
declared target whose invocation record cannot be retrieved raises while
destructuring inside the `try`, hence takes the exception path.) -/
def compute_target (s : Scheme) (runner : Runner) (fs : FS)
    (target_str : String) : Nat × FS :=
  if !target_exists s target_str then (TARGET_NOT_FOUND, fs)
  else if is_locked s fs target_str then (TARGET_LOCKED, fs)
  else
    let fs1 := (lock_target s fs target_str).2
    match find_invocation_for_target s target_str with
    | none =>
      (STEP_RUN_FAILED_WITH_EXCEPTION,
        unlock_target s (remove_target s fs1 target_str) target_str)
    | some inv =>
      let r := runner inv fs1
      match r.2 with
      | .ok => (STEP_RUN_OK, unlock_target s r.1 target_str)
      | .failed =>
        (STEP_RUN_FAILED,
          unlock_target s (remove_target s r.1 target_str) target_str)
      | .exc =>
        (STEP_RUN_FAILED_WITH_EXCEPTION,
          unlock_target s (remove_target s r.1 target_str) target_str)

/-! ### Exporter: `save_makefile` -/

/-- Python's `str.replace(old, new)` for a single-character pattern:
every occurrence of `old` is replaced by the characters `new`. -/
def py_replace_char (old : Char) (new : List Char) (s : String) : String :=
  String.mk (s.data.flatMap fun c => if c = old then new else [c])

/-- The escaping applied to the target identifier in the recipe line:
`str(lhs).replace('"', '\\"').replace('$', '\\$')`. -/
def escape_target (t : String) : String :=
  py_replace_char '$' ['\\', '$'] (py_replace_char '"' ['\\', '"'] t)

/-- The two lines `save_makefile` prints for one declared invocation:
the rule `<artifact>: <space-joined dependency artifacts>` and the recipe
`\t<compute_command> "<escaped identifier>"`. -/
def makefile_rule (s : Scheme) (compute_command : String)
    (lhs : String) (rhs : Comp) : List String :=
  [target_filename s lhs ++ ": " ++
    " ".intercalate (rhs.dependencies.map (target_filename s)),
   "\t" ++ compute_command ++ " \"" ++ escape_target lhs ++ "\""]

/-- `ComputationScheme.save_makefile`, as the list of lines it prints
(with the default output stream all lines go to standard output in this
order): if a main target is set, first the line `<its artifact>:`; then
the rule and recipe for every declared invocation in declaration order. -/
def save_makefile (s : Scheme) (compute_command : String) : List String :=
  (match s.main_target with
   | none => []
   | some m => [target_filename s m ++ ":"]) ++
  s.all_invocations.flatMap fun p => makefile_rule s compute_command p.1 p.2

/-! ### Concrete fixtures used by the witnesses and counterexamples -/

/-- The invocation `f()` producing the fixture target `A`. -/
def compA : Comp :=
  { name := some "f", args := some (pl []), kwargs := some PyDict.nil }

/-- The invocation `g(A)` producing the fixture target `B`. -/
def compB : Comp :=
  { name := some "g", args := some (pl [PyVal.dataObj "A"]),
    kwargs := some PyDict.nil }

/-- The invocation `h(B)` producing the fixture target `C`. -/
def compC : Comp :=
  { name := some "h", args := some (pl [PyVal.dataObj "B"]),
    kwargs := some PyDict.nil }

/-- A chain `A ← B ← C` declared in order into a fresh scheme with cache
directory `.`: `A` by `f()`, `B` by `g(A)`, `C` by `h(B)`. -/
def chainScheme : Scheme :=
  let s1 := (add_invocation (emptyScheme ".") "A" (Invocation.comp compA)).2
  let s2 := (add_invocation s1 "B" (Invocation.comp compB)).2
  (add_invocation s2 "C" (Invocation.comp compC)).2

/-- The filesystem holding exactly the output artifact of `A`. -/
def fsDoneA : FS := fsCreate emptyFS (target_filename chainScheme "A")

/-- The filesystem holding exactly the lock marker of `A`. -/
def fsLockedA : FS := fsCreate emptyFS (lock_filename chainScheme "A")

/-- A runner whose computation always reports logical failure. -/
def failRunner : Runner := fun _ fs => (fs, RunResult.failed)

/-- A runner that writes the artifact of its target into the scheme
directory of `chainScheme` and reports success. -/
def okRunner : Runner := fun inv fs =>
  (fsCreate fs (target_filename chainScheme inv.1), RunResult.ok)

/-- The filesystem holding the lock marker of `A` and a stale artifact
of `A`. -/
def fsLockedDoneA : FS := fsCreate fsLockedA (target_filename chainScheme "A")

/-- The invocation of C4's testable property: positional arguments
`[A, [B, C], "literal", {k: D}]` and no keyword arguments. -/
def c4_comp : Comp :=
  { name := some "f"
    args := some (pl [PyVal.dataObj "A",
      PyVal.pylist (pl [PyVal.dataObj "B", PyVal.dataObj "C"]),
      PyVal.lit "literal",
      PyVal.pydict (PyDict.cons "k" (PyVal.dataObj "D") PyDict.nil)])
    kwargs := some PyDict.nil }

/-- C4's invocation with the positional arguments permuted (and the
inner list reversed), to check order-independence of the derived set. -/
def c4_comp_reordered : Comp :=
  { name := some "f"
    args := some (pl [PyVal.pydict (PyDict.cons "k" (PyVal.dataObj "D") PyDict.nil),
      PyVal.lit "literal",
      PyVal.pylist (pl [PyVal.dataObj "C", PyVal.dataObj "B"]),
      PyVal.dataObj "A"])
    kwargs := some PyDict.nil }

/-- The invocation `g(Y)` producing the fixture target `X`. -/
def compX : Comp :=
  { name := some "g", args := some (pl [PyVal.dataObj "Y"]),
    kwargs := some PyDict.nil }

/-- A two-target scheme `X ← Y` (declared `Y` then `X`) with main target
`X`, for the Exporter claims. -/
def mkScheme : Scheme :=
  let s1 := (add_invocation (emptyScheme ".") "Y" (Invocation.comp compA)).2
  set_main_target (add_invocation s1 "X" (Invocation.comp compX)).2 "X"

/-- The text after the first colon of a one-line rule — its prerequisite
field. -/
def after_colon (line : String) : String :=
  String.mk ((line.data.dropWhile fun c => c ≠ ':').drop 1)

/-- Modelled from the spec: the escaping the claim describes for the
recipe's quoted argument — every `"` and every `$` character of the
identifier is backslash-escaped (one simultaneous character-wise pass,
to be compared with the source's two sequential `str.replace` calls). -/
def escape_spec (t : String) : String :=
  String.mk (t.data.flatMap fun c =>
    if c = '"' then ['\\', '"']
    else if c = '$' then ['\\', '$']
    else [c])

/-- Modelled from the spec (amended claim): if a main target is
declared, first a rule whose output is the main target's artifact path
and whose prerequisite list is empty; then, for every declared target in
declaration order, a rule with the target's artifact path as output and
its dependency artifact paths as prerequisites, followed by a recipe
line invoking the build command template with the escaped identifier as
a quoted argument. -/
def makefile_spec (s : Scheme) (buildCommandTemplate : String) : List String :=
  (match s.main_target with
   | none => []
   | some m => [target_filename s m ++ ":"]) ++
  s.all_invocations.flatMap fun p =>
    [target_filename s p.1 ++ ": " ++
      " ".intercalate (p.2.dependencies.map (target_filename s)),
     "\t" ++ buildCommandTemplate ++ " \"" ++ escape_spec p.1 ++ "\""]

/-- Number of occurrences of the data object named `x` in an argument
list, counted through nested lists exactly where extraction descends. -/
def occsIn (x : String) : PyList → Nat
  | .nil => 0
  | .cons (PyVal.dataObj s) rest => (if s = x then 1 else 0) + occsIn x rest
  | .cons (PyVal.pylist l) rest => occsIn x l + occsIn x rest
  | .cons (PyVal.lit _) rest => occsIn x rest
  | .cons (PyVal.pydict _) rest => occsIn x rest

/-- An invocation `f(A, [A, B], k=A)` in which the data object `A`
occurs three times, for the ordered-list claim. -/
def dupComp : Comp :=
  { name := some "f"
    args := some (pl [PyVal.dataObj "A",
      PyVal.pylist (pl [PyVal.dataObj "A", PyVal.dataObj "B"])])
    kwargs := some (PyDict.cons "k" (PyVal.dataObj "A") PyDict.nil) }

end Pyce

namespace Pyce

/-! ## Shared lemmas about the state store -/

/-- The lock-marker path of a target is never its artifact path (the
former is seven characters longer). -/
theorem lock_filename_ne (s : Scheme) (t : String) :
    lock_filename s t ≠ target_filename s t := by
  intro h
  have h2 := congrArg String.length h
  rw [lock_filename, String.length_append] at h2
  have h3 : (".locked" : String).length = 7 := rfl
  omega

/-- After `unlock_target` the lock marker is gone. -/
theorem unlock_target_lockfile (s : Scheme) (fs : FS) (t : String) :
    unlock_target s fs t (lock_filename s t) = false := by
  unfold unlock_target fsRemove
  split
  · simp
  · simp_all

/-- `unlock_target` touches no path other than the lock marker. -/
theorem unlock_target_ne (s : Scheme) (fs : FS) (t : String) (p : String)
    (h : p ≠ lock_filename s t) : unlock_target s fs t p = fs p := by
  unfold unlock_target fsRemove
  split
  · simp [h]
  · rfl

/-- `unlock_target` on a state without the lock marker is the identity. -/
theorem unlock_target_absent (s : Scheme) (fs : FS) (t : String)
    (h : fs (lock_filename s t) = false) : unlock_target s fs t = fs := by
  unfold unlock_target
  simp [h]

/-- After `remove_target` the output artifact is gone. -/
theorem remove_target_artifact (s : Scheme) (fs : FS) (t : String) :
    remove_target s fs t (target_filename s t) = false := by
  unfold remove_target fsRemove
  split
  · simp
  · simp_all

/-- `remove_target` touches no path other than the artifact. -/
theorem remove_target_ne (s : Scheme) (fs : FS) (t : String) (p : String)
    (h : p ≠ target_filename s t) : remove_target s fs t p = fs p := by
  unfold remove_target fsRemove
  split
  · simp [h]
  · rfl

/-- `remove_target` on a state without the artifact is the identity. -/
theorem remove_target_absent (s : Scheme) (fs : FS) (t : String)
    (h : fs (target_filename s t) = false) : remove_target s fs t = fs := by
  unfold remove_target
  simp [h]

/-! ## Claims -/

/-- C2: in the declared chain `A ← B ← C` (`chainScheme`), with no
lock markers and no artifacts, `find_next_step_to "C"` returns `A`; with
`A` done (artifact present, no lock) it returns `B`; with `A` locked it
returns `None` ("no step available"). Fuel 10 exceeds the recursion
depth, so the outer `some` certifies the Python call terminates. -/
theorem resolver_chain_correct :
    find_next_step_to chainScheme emptyFS 10 "C" = some (some "A") ∧
    find_next_step_to chainScheme fsDoneA 10 "C" = some (some "B") ∧
    find_next_step_to chainScheme fsLockedA 10 "C" = some none := by
  decide

/-- C3: for every target and filesystem state exactly one of locked,
done, pending holds (the three disjuncts are pairwise incompatible on
the value of `is_locked`/`is_done`), and a locked target is never
reported done, whatever the artifact's presence. -/
theorem status_exclusivity (s : Scheme) (fs : FS) (t : String) :
    ((is_locked s fs t = true ∧ is_done s fs t = false) ∨
     (is_locked s fs t = false ∧ is_done s fs t = true) ∨
     (is_locked s fs t = false ∧ is_done s fs t = false ∧
       fs (target_filename s t) = false)) ∧
    (is_locked s fs t = true → is_done s fs t = false) := by
  unfold is_done
  cases h1 : is_locked s fs t <;>
    cases h2 : fs (target_filename s t) <;> simp

/-- Witness for C3 at a locked target with a stale artifact present. -/
theorem status_exclusivity_witness :
    ((is_locked chainScheme fsLockedDoneA "A" = true ∧
        is_done chainScheme fsLockedDoneA "A" = false) ∨
     (is_locked chainScheme fsLockedDoneA "A" = false ∧
        is_done chainScheme fsLockedDoneA "A" = true) ∨
     (is_locked chainScheme fsLockedDoneA "A" = false ∧
        is_done chainScheme fsLockedDoneA "A" = false ∧
        fsLockedDoneA (target_filename chainScheme "A") = false)) ∧
    is_done chainScheme fsLockedDoneA "A" = false :=
  ⟨(status_exclusivity chainScheme fsLockedDoneA "A").1,
   (status_exclusivity chainScheme fsLockedDoneA "A").2 (by decide)⟩

/-- C4, counterexample: for the invocation with positional arguments
`[A, [B, C], "literal", {k: D}]` the derived dependency set is *not*
`{A, B, C, D}`: `extract_data_objects` descends into lists and tuples
but skips dicts, so `D` is never collected. -/
theorem extraction_dict_counterexample :
    c4_comp.dependencies.toFinset ≠ ({"A", "B", "C", "D"} : Finset String) := by
  decide

/-- C4 (amended): for the invocation with positional arguments
`[A, [B, C], "literal", {k: D}]` the derived dependency set is exactly
`{A, B, C}`, independent of the order of the arguments; `D` is excluded
because dependency extraction does not descend into dict values among
the positional arguments. -/
theorem extraction_skips_dict :
    c4_comp.dependencies.toFinset = ({"A", "B", "C"} : Finset String) ∧
    c4_comp_reordered.dependencies.toFinset =
      ({"A", "B", "C"} : Finset String) := by
  decide

/-- C8: `unlock_target` (resp. `remove_target`) on a state where the
lock marker (resp. artifact) is absent is the identity on the
filesystem, and each operation is idempotent. (Neither can raise: the
`os.unlink` call is guarded by the existence check.) -/
theorem unlock_remove_idempotent (s : Scheme) (fs : FS) (t : String) :
    (fs (lock_filename s t) = false → unlock_target s fs t = fs) ∧
    (fs (target_filename s t) = false → remove_target s fs t = fs) ∧
    unlock_target s (unlock_target s fs t) t = unlock_target s fs t ∧
    remove_target s (remove_target s fs t) t = remove_target s fs t :=
  ⟨unlock_target_absent s fs t, remove_target_absent s fs t,
   unlock_target_absent s _ t (unlock_target_lockfile s fs t),
   remove_target_absent s _ t (remove_target_artifact s fs t)⟩

/-- Witness for C8 on the empty filesystem, where both markers are
absent. -/
theorem unlock_remove_idempotent_witness :
    unlock_target (emptyScheme ".") emptyFS "A" = emptyFS ∧
    remove_target (emptyScheme ".") emptyFS "A" = emptyFS :=
  ⟨(unlock_remove_idempotent (emptyScheme ".") emptyFS "A").1 rfl,
   (unlock_remove_idempotent (emptyScheme ".") emptyFS "A").2.1 rfl⟩

/-- C1: for a declared, unlocked target, after `compute_target` —
whatever the runner does to the filesystem and however its call ends —
the target's lock marker is absent; and when the result is logical
failure (`STEP_RUN_FAILED`) or exception failure
(`STEP_RUN_FAILED_WITH_EXCEPTION`), the output artifact is absent too. -/
theorem lock_release_invariant (s : Scheme) (r : Runner) (fs : FS)
    (t : String) (hdecl : target_exists s t = true)
    (hunlocked : is_locked s fs t = false) :
    (compute_target s r fs t).2 (lock_filename s t) = false ∧
    ((compute_target s r fs t).1 = STEP_RUN_FAILED ∨
        (compute_target s r fs t).1 = STEP_RUN_FAILED_WITH_EXCEPTION →
      (compute_target s r fs t).2 (target_filename s t) = false) := by
  have hta : target_filename s t ≠ lock_filename s t :=
    (lock_filename_ne s t).symm
  unfold compute_target
  simp only [hdecl, hunlocked, Bool.not_true, Bool.false_eq_true, if_false]
  split
  · exact ⟨unlock_target_lockfile s _ t, fun _ =>
      (unlock_target_ne s _ t _ hta).trans (remove_target_artifact s _ t)⟩
  · split
    · refine ⟨unlock_target_lockfile s _ t, fun hc => ?_⟩
      rcases hc with h | h <;> simp [STEP_RUN_OK, STEP_RUN_FAILED,
        STEP_RUN_FAILED_WITH_EXCEPTION] at h
    · exact ⟨unlock_target_lockfile s _ t, fun _ =>
        (unlock_target_ne s _ t _ hta).trans (remove_target_artifact s _ t)⟩
    · exact ⟨unlock_target_lockfile s _ t, fun _ =>
        (unlock_target_ne s _ t _ hta).trans (remove_target_artifact s _ t)⟩

/-- Witness for C1: building `A` with a runner that reports logical
failure leaves neither the lock marker nor the artifact. -/
theorem lock_release_invariant_witness :
    (compute_target chainScheme failRunner emptyFS "A").2
      (lock_filename chainScheme "A") = false ∧
    ((compute_target chainScheme failRunner emptyFS "A").1 = STEP_RUN_FAILED ∨
        (compute_target chainScheme failRunner emptyFS "A").1 =
          STEP_RUN_FAILED_WITH_EXCEPTION →
      (compute_target chainScheme failRunner emptyFS "A").2
        (target_filename chainScheme "A") = false) :=
  lock_release_invariant chainScheme failRunner emptyFS "A"
    (by decide) (by decide)

/-- C6: `compute_target` on an undeclared target returns
`TARGET_NOT_FOUND` and on a locked declared target returns
`TARGET_LOCKED`; in both cases the filesystem is returned exactly as it
was (no lock marker created or removed, no artifact removed), and since
the equations hold for every runner `r`, the runner is never invoked. -/
theorem failfast_untouched (s : Scheme) (r : Runner) (fs : FS) (t : String) :
    (target_exists s t = false →
      compute_target s r fs t = (TARGET_NOT_FOUND, fs)) ∧
    (target_exists s t = true → is_locked s fs t = true →
      compute_target s r fs t = (TARGET_LOCKED, fs)) := by
  constructor
  · intro h
    unfold compute_target
    simp [h]
  · intro h1 h2
    unfold compute_target
    simp [h1, h2]

/-- Witness for C6: the undeclared target `Z` and the locked declared
target `A`, both against a runner that would report failure. -/
theorem failfast_untouched_witness :
    compute_target chainScheme failRunner fsLockedA "Z" =
      (TARGET_NOT_FOUND, fsLockedA) ∧
    compute_target chainScheme failRunner fsLockedA "A" =
      (TARGET_LOCKED, fsLockedA) :=
  ⟨(failfast_untouched chainScheme failRunner fsLockedA "Z").1 (by decide),
   (failfast_untouched chainScheme failRunner fsLockedA "A").2
     (by decide) (by decide)⟩

/-- C9: on a declared target that is already done (artifact present,
not locked), `compute_target` neither fails fast nor skips the work: the
runner receives the filesystem with the lock marker created, and the
reported result is exactly the code for however the runner's call ends
(`STEP_RUN_OK`, `STEP_RUN_FAILED` or `STEP_RUN_FAILED_WITH_EXCEPTION` —
never `TARGET_NOT_FOUND`, `TARGET_LOCKED` or any "already done" code). -/
theorem rebuild_done_target (s : Scheme) (r : Runner) (fs : FS)
    (t : String) (inv : String × Comp)
    (hdecl : target_exists s t = true)
    (hfind : find_invocation_for_target s t = some inv)
    (hdone : is_done s fs t = true) :
    (lock_target s fs t).2 (lock_filename s t) = true ∧
    (compute_target s r fs t).1 =
      runResultCode (r inv (lock_target s fs t).2).2 := by
  have hunlocked : is_locked s fs t = false := by
    simp only [is_done, Bool.and_eq_true, Bool.not_eq_eq_eq_not,
      Bool.not_true] at hdone
    exact hdone.1
  constructor
  · simp [lock_target, hunlocked, fsCreate]
  · unfold compute_target
    simp only [hdecl, hunlocked, Bool.not_true, Bool.false_eq_true, if_false,
      hfind]
    cases hr : (r inv (lock_target s fs t).2).2 <;>
      simp [hr, runResultCode]

/-- Witness for C9: rebuilding the already-done `A` with a runner that
reports logical failure yields the logical-failure code. -/
theorem rebuild_done_target_witness :
    (lock_target chainScheme fsDoneA "A").2 (lock_filename chainScheme "A") =
      true ∧
    (compute_target chainScheme failRunner fsDoneA "A").1 =
      runResultCode
        (failRunner ("A", compA) (lock_target chainScheme fsDoneA "A").2).2 :=
  rebuild_done_target chainScheme failRunner fsDoneA "A" ("A", compA)
    (by decide) rfl (by decide)

/-- Invariant used by C5: in a scheme reachable by declarations, a
target has an invocation-index entry iff it has a dependency-graph
entry. `add_invocation` preserves it. -/
theorem add_invocation_preserves_domains (s : Scheme) (t : String)
    (v : Invocation)
    (hwf : ∀ u, (dictGet s.invocation_idx u).isSome =
      (dictGet s.dependency_graph u).isSome) :
    ∀ u, (dictGet (add_invocation s t v).2.invocation_idx u).isSome =
      (dictGet (add_invocation s t v).2.dependency_graph u).isSome := by
  intro u
  unfold add_invocation
  split
  · exact hwf u
  · by_cases h : t = u <;> simp [dictGet, h, hwf u]

/-- The empty scheme satisfies the domain invariant. -/
theorem emptyScheme_domains (cd : String) :
    ∀ u, (dictGet (emptyScheme cd).invocation_idx u).isSome =
      (dictGet (emptyScheme cd).dependency_graph u).isSome :=
  fun _ => rfl

/-- `chainScheme` satisfies the domain invariant. -/
theorem chainScheme_domains :
    ∀ u, (dictGet chainScheme.invocation_idx u).isSome =
      (dictGet chainScheme.dependency_graph u).isSome := by
  intro u
  exact add_invocation_preserves_domains _ _ _
    (add_invocation_preserves_domains _ _ _
      (add_invocation_preserves_domains _ _ _ (emptyScheme_domains ".") )) u

/-- C5: declaring an invocation for a target that already has one
(in any scheme whose index and dependency dicts have the same domain, as
every scheme built by declarations does) raises the duplicate-target
error, and the scheme — invocation list, invocation index and dependency
mapping alike — is exactly as it was before the attempt. -/
theorem duplicate_declaration_rejected (s : Scheme) (t : String)
    (v : Invocation)
    (hwf : ∀ u, (dictGet s.invocation_idx u).isSome =
      (dictGet s.dependency_graph u).isSome)
    (hdecl : target_exists s t = true) :
    (add_invocation s t v).1 =
      some ("Target " ++ t ++ " has multiple specifications") ∧
    (add_invocation s t v).2 = s := by
  have hdep : (dictGet s.dependency_graph t).isSome = true := by
    rw [← hwf t]
    exact hdecl
  unfold add_invocation
  simp [hdep]

/-- Witness for C5: redeclaring `A` in `chainScheme` (as a copy of a
literal) fails and leaves the scheme untouched. -/
theorem duplicate_declaration_rejected_witness :
    (add_invocation chainScheme "A" (Invocation.value (PyVal.lit "x"))).1 =
      some ("Target " ++ "A" ++ " has multiple specifications") ∧
    (add_invocation chainScheme "A" (Invocation.value (PyVal.lit "x"))).2 =
      chainScheme :=
  duplicate_declaration_rejected chainScheme "A"
    (Invocation.value (PyVal.lit "x")) chainScheme_domains (by decide)

/-- Replacing `"` and then `$` sequentially is the same as one
simultaneous character-wise pass (the first replacement introduces no
`$`, the second no `"`). -/
theorem escape_chars_eq (l : List Char) :
    ((l.flatMap fun c => if c = '"' then ['\\', '"'] else [c]).flatMap
        fun c => if c = '$' then ['\\', '$'] else [c]) =
      l.flatMap (fun c =>
        if c = '"' then ['\\', '"']
        else if c = '$' then ['\\', '$']
        else [c]) := by
  induction l with
  | nil => rfl
  | cons c cs ih =>
    by_cases h1 : c = '"'
    · subst h1
      simp [ih]
    · by_cases h2 : c = '$' <;> simp [h1, h2, ih]

/-- The source's escaping (two sequential `str.replace` calls) equals
the spec's simultaneous escaping of `"` and `$`. -/
theorem escape_target_eq_spec (t : String) : escape_target t = escape_spec t := by
  unfold escape_target escape_spec py_replace_char
  exact congrArg String.mk (escape_chars_eq t.data)

/-- C7, counterexample: with main target `X` declared, the first emitted
line is `<X's artifact path>:` — the text after the colon, the rule's
prerequisite list, is empty, and in particular is not `X`'s (non-empty)
artifact path; the artifact path stands *before* the colon, as the
rule's output, so the claim that the first rule has the main target's
artifact path as its prerequisite is false. -/
theorem makefile_main_rule_counterexample :
    (save_makefile mkScheme "make.py compute").headD "" =
      target_filename mkScheme "X" ++ ":" ∧
    after_colon ((save_makefile mkScheme "make.py compute").headD "") = "" ∧
    target_filename mkScheme "X" ≠ "" := by
  decide

/-- C7 (amended): `save_makefile` emits, when a main target is declared,
first a rule whose output (left-hand side) is the main target's artifact
path with no prerequisites; then, for every declared target in
declaration order, a rule with the target's artifact path as output and
its dependency artifact paths as prerequisites, followed by a recipe
line invoking the build command template with the target identifier as a
quoted argument in which every `"` and `$` is backslash-escaped. -/
theorem makefile_refines_spec (s : Scheme) (cmd : String) :
    save_makefile s cmd = makefile_spec s cmd := by
  simp only [save_makefile, makefile_spec, makefile_rule, escape_target_eq_spec]

/-- Extraction counts multiplicity: an identifier appears in
`extractList l` exactly as often as the corresponding data object occurs
in `l` (through nested lists). -/
theorem extractList_count (x : String) (l : PyList) :
    (extractList l).count x = occsIn x l := by
  induction l using extractList.induct with
  | case1 => rfl
  | case2 s rest ih =>
    by_cases hsx : s = x <;>
      simp [extractList, occsIn, List.count_cons, hsx, ih, Nat.add_comm]
  | case3 l rest ihl ihr =>
    simp [extractList, occsIn, List.count_append, ihl, ihr]
  | case4 _ rest ih => simp [extractList, occsIn, ih]
  | case5 _ rest ih => simp [extractList, occsIn, ih]

/-- C10: `dependencies` returns an ordered list, not a set: the data
objects extracted (depth-first, left to right) from the positional
arguments, followed by those extracted from the named-argument values;
every identifier occurs in the result exactly as often as its data
object occurs among the arguments; and for the concrete invocation
`f(A, [A, B], k=A)` the list — also as stored in the dependency graph by
the declaration — is `[A, A, B, A]`, with `A` three times, in occurrence
order. -/
theorem dependencies_ordered_multiset (n : Option String) (args : PyList)
    (kw : PyDict) :
    (Comp.mk n (some args) (some kw)).dependencies =
      extractList args ++ extractList kw.values ∧
    (∀ x, ((Comp.mk n (some args) (some kw)).dependencies).count x =
      occsIn x args + occsIn x kw.values) ∧
    dupComp.dependencies = ["A", "A", "B", "A"] ∧
    dictGet ((add_invocation (emptyScheme ".") "T"
        (Invocation.comp dupComp)).2).dependency_graph "T" =
      some ["A", "A", "B", "A"] := by
  refine ⟨rfl, fun x => ?_, by decide, by decide⟩
  show (extractList args ++ extractList kw.values).count x = _
  rw [List.count_append, extractList_count, extractList_count]

end Pyce
